import Mathlib

/-!
Verification development for the quadcopter simulation repository.

The Python modules `Quadcopter.py`, `pid_controller.py` and `simulator.py`
are embedded shallowly over the real numbers: every mutating method becomes
a state-to-state function, Python floats become `ℝ`, Python lists become
`List`, and Python's `None`-able `integrator_limit` becomes `Option ℝ`.
The specification's testable properties are then settled as theorems below.
-/

namespace DroneSim

/-! ### Quadcopter.py: the rigid-body model -/

/-- The full attribute set of a `Quadcopter` instance: physical parameters
(`mass`, `length`, `Ix`, `Iy`, `Iz`), the 12-dimensional kinematic state,
the last-applied control inputs, and the (otherwise unused) history list.
The entries of `history` mirror the `(time, state-dict)` pairs used by the
simulator log. -/
structure Quad where
  mass : ℝ
  length : ℝ
  Ix : ℝ
  Iy : ℝ
  Iz : ℝ
  x : ℝ
  y : ℝ
  z : ℝ
  vx : ℝ
  vy : ℝ
  vz : ℝ
  roll : ℝ
  pitch : ℝ
  yaw : ℝ
  p : ℝ
  q : ℝ
  r : ℝ
  torque_roll : ℝ
  torque_pitch : ℝ
  torque_yaw : ℝ
  thrust : ℝ
  history : List (ℝ × (ℝ × ℝ × ℝ))

/-- `self.g = 9.81`, set in `__init__` and never modified. -/
def Quad.g : ℝ := 9.81

/-- `self.MAX_ANGLE = 1.57`, set in `__init__` and never modified. -/
def Quad.MAX_ANGLE : ℝ := 1.57

/-- `self.MAX_VEL = 50.0`, set in `__init__` and never modified. -/
def Quad.MAX_VEL : ℝ := 50.0

/-- `self.MAX_POS = 500.0`, set in `__init__` and never modified. -/
def Quad.MAX_POS : ℝ := 500.0

/-- `Quadcopter.__init__(mass, length, Ixx, Iyy, Izz)`: stores the physical
parameters unvalidated and zero-initialises the state, except `z = 2.5`. -/
def Quad.init (mass length Ixx Iyy Izz : ℝ) : Quad where
  mass := mass
  length := length
  Ix := Ixx
  Iy := Iyy
  Iz := Izz
  x := 0
  y := 0
  z := 2.5
  vx := 0
  vy := 0
  vz := 0
  roll := 0
  pitch := 0
  yaw := 0
  p := 0
  q := 0
  r := 0
  torque_roll := 0
  torque_pitch := 0
  torque_yaw := 0
  thrust := 0
  history := []

/-- `Quadcopter.set_control`: stores the torques and floors the thrust at 0. -/
def Quad.set_control (s : Quad) (torque_roll torque_pitch torque_yaw thrust : ℝ) :
    Quad :=
  { s with
    torque_roll := torque_roll
    torque_pitch := torque_pitch
    torque_yaw := torque_yaw
    thrust := max 0.0 thrust }

open Classical in
/-- The loop `while self.yaw > math.pi: self.yaw -= 2 * math.pi`. -/
noncomputable def wrapDown (y : ℝ) : ℝ :=
  if h : y > Real.pi then wrapDown (y - 2 * Real.pi) else y
termination_by Nat.ceil ((y - Real.pi) / (2 * Real.pi))
decreasing_by
  have hpi : (0 : ℝ) < Real.pi := Real.pi_pos
  have harg : (y - 2 * Real.pi - Real.pi) / (2 * Real.pi)
      = (y - Real.pi) / (2 * Real.pi) - 1 := by
    field_simp
    ring
  rw [harg]
  have hx0 : 0 < (y - Real.pi) / (2 * Real.pi) := by
    apply div_pos (by linarith) (by linarith)
  rw [Nat.lt_ceil]
  rcases le_or_lt ((y - Real.pi) / (2 * Real.pi)) 1 with h1 | h1
  · have hz : Nat.ceil ((y - Real.pi) / (2 * Real.pi) - 1) = 0 :=
      Nat.ceil_eq_zero.mpr (by linarith)
    rw [hz]
    exact_mod_cast hx0
  · calc (Nat.ceil ((y - Real.pi) / (2 * Real.pi) - 1) : ℝ)
        < ((y - Real.pi) / (2 * Real.pi) - 1) + 1 :=
          Nat.ceil_lt_add_one (by linarith)
    _ = (y - Real.pi) / (2 * Real.pi) := by ring

open Classical in
/-- The loop `while self.yaw < -math.pi: self.yaw += 2 * math.pi`. -/
noncomputable def wrapUp (y : ℝ) : ℝ :=
  if h : y < -Real.pi then wrapUp (y + 2 * Real.pi) else y
termination_by Nat.ceil ((-Real.pi - y) / (2 * Real.pi))
decreasing_by
  have hpi : (0 : ℝ) < Real.pi := Real.pi_pos
  have harg : (-Real.pi - (y + 2 * Real.pi)) / (2 * Real.pi)
      = (-Real.pi - y) / (2 * Real.pi) - 1 := by
    field_simp
    ring
  rw [harg]
  have hx0 : 0 < (-Real.pi - y) / (2 * Real.pi) := by
    apply div_pos (by linarith) (by linarith)
  rw [Nat.lt_ceil]
  rcases le_or_lt ((-Real.pi - y) / (2 * Real.pi)) 1 with h1 | h1
  · have hz : Nat.ceil ((-Real.pi - y) / (2 * Real.pi) - 1) = 0 :=
      Nat.ceil_eq_zero.mpr (by linarith)
    rw [hz]
    exact_mod_cast hx0
  · calc (Nat.ceil ((-Real.pi - y) / (2 * Real.pi) - 1) : ℝ)
        < ((-Real.pi - y) / (2 * Real.pi) - 1) + 1 :=
          Nat.ceil_lt_add_one (by linarith)
    _ = (-Real.pi - y) / (2 * Real.pi) := by ring

open Classical in
/-- `Quadcopter.step(dt)`: one forward-Euler integration step, in the source
order: angular accelerations, angular rates, Euler angles, roll/pitch clamp,
yaw wrap, body-to-world thrust rotation, linear accelerations, velocities
with clamp, positions, ground contact, position clamp. -/
noncomputable def Quad.step (s : Quad) (dt : ℝ) : Quad :=
  let pdot := s.torque_roll / s.Ix
  let qdot := s.torque_pitch / s.Iy
  let rdot := s.torque_yaw / s.Iz
  let p := s.p + pdot * dt
  let q := s.q + qdot * dt
  let r := s.r + rdot * dt
  let roll := s.roll + p * dt
  let pitch := s.pitch + q * dt
  let yaw := s.yaw + r * dt
  let roll := max (-Quad.MAX_ANGLE) (min Quad.MAX_ANGLE roll)
  let pitch := max (-Quad.MAX_ANGLE) (min Quad.MAX_ANGLE pitch)
  let yaw := wrapUp (wrapDown yaw)
  let cr := Real.cos roll
  let sr := Real.sin roll
  let cp := Real.cos pitch
  let sp := Real.sin pitch
  let cy := Real.cos yaw
  let sy := Real.sin yaw
  let r13 := cy * sp * cr + sy * sr
  let r23 := sy * sp * cr - cy * sr
  let r33 := cp * cr
  let fx := s.thrust * r13
  let fy := s.thrust * r23
  let fz := s.thrust * r33 - s.mass * Quad.g
  let ax := fx / s.mass
  let ay := fy / s.mass
  let az := fz / s.mass
  let vx := s.vx + ax * dt
  let vy := s.vy + ay * dt
  let vz := s.vz + az * dt
  let vx := max (-Quad.MAX_VEL) (min Quad.MAX_VEL vx)
  let vy := max (-Quad.MAX_VEL) (min Quad.MAX_VEL vy)
  let vz := max (-Quad.MAX_VEL) (min Quad.MAX_VEL vz)
  let x := s.x + vx * dt
  let y := s.y + vy * dt
  let z := s.z + vz * dt
  let zGround := z < 0.0
  let z := if zGround then 0.0 else z
  let vz := if zGround then 0.0 else vz
  let x := max (-Quad.MAX_POS) (min Quad.MAX_POS x)
  let y := max (-Quad.MAX_POS) (min Quad.MAX_POS y)
  let z := max 0.0 (min Quad.MAX_POS z)
  { s with
    p := p, q := q, r := r
    roll := roll, pitch := pitch, yaw := yaw
    vx := vx, vy := vy, vz := vz
    x := x, y := y, z := z }

/-- The dictionary returned by `Quadcopter.get_state`. -/
structure StateDict where
  x : ℝ
  y : ℝ
  z : ℝ
  vx : ℝ
  vy : ℝ
  vz : ℝ
  roll : ℝ
  pitch : ℝ
  yaw : ℝ
  p : ℝ
  q : ℝ
  r : ℝ
  thrust : ℝ
  torque_roll : ℝ
  torque_pitch : ℝ
  torque_yaw : ℝ

/-- `Quadcopter.get_state`: a snapshot of the current state, including the
last-applied control inputs. -/
def Quad.get_state (s : Quad) : StateDict where
  x := s.x
  y := s.y
  z := s.z
  vx := s.vx
  vy := s.vy
  vz := s.vz
  roll := s.roll
  pitch := s.pitch
  yaw := s.yaw
  p := s.p
  q := s.q
  r := s.r
  thrust := s.thrust
  torque_roll := s.torque_roll
  torque_pitch := s.torque_pitch
  torque_yaw := s.torque_yaw

/-- `Quadcopter.reset`: restores the kinematic state to the construction
defaults and clears the history list.  The control inputs
(`torque_roll`, `torque_pitch`, `torque_yaw`, `thrust`) are not touched. -/
def Quad.reset (s : Quad) : Quad :=
  { s with
    x := 0
    y := 0
    z := 2.5
    vx := 0
    vy := 0
    vz := 0
    roll := 0
    pitch := 0
    yaw := 0
    p := 0
    q := 0
    r := 0
    history := [] }

/-! ### pid_controller.py: PID and CascadedController -/

/-- The attribute set of a `PID` instance: gains, optional integrator
limit, derivative filter time constant, and the mutable state. -/
structure PID where
  kp : ℝ
  ki : ℝ
  kd : ℝ
  integrator_limit : Option ℝ
  derivative_filter_tau : ℝ
  integral : ℝ
  prev_error : ℝ
  filtered_derivative : ℝ
  first_call : Bool

/-- `PID.__init__(kp, ki, kd, integrator_limit=None, derivative_filter_tau=0.0)`. -/
def PID.init (kp ki kd : ℝ) (integrator_limit : Option ℝ)
    (derivative_filter_tau : ℝ) : PID where
  kp := kp
  ki := ki
  kd := kd
  integrator_limit := integrator_limit
  derivative_filter_tau := derivative_filter_tau
  integral := 0
  prev_error := 0
  filtered_derivative := 0
  first_call := true

/-- `PID.reset`: zeroes the mutable state and re-arms the first-call flag. -/
def PID.reset (c : PID) : PID :=
  { c with
    integral := 0
    prev_error := 0
    filtered_derivative := 0
    first_call := true }

open Classical in
/-- `PID.update(error, dt)`: returns the control output together with the
updated controller state.  `dres` packages the derivative branch of the
source: its first component is `d_term` and its second the (possibly
updated) `filtered_derivative`. -/
noncomputable def PID.update (c : PID) (error dt : ℝ) : ℝ × PID :=
  let p_term := c.kp * error
  let integral := c.integral + error * dt
  let integral :=
    match c.integrator_limit with
    | some lim => max (-lim) (min lim integral)
    | none => integral
  let i_term := c.ki * integral
  let dres : ℝ × ℝ :=
    if c.first_call then
      (0.0, c.filtered_derivative)
    else
      let raw_derivative := if dt > 0 then (error - c.prev_error) / dt else 0.0
      if c.derivative_filter_tau > 0 then
        let alpha := dt / (dt + c.derivative_filter_tau)
        let fd := alpha * raw_derivative + (1 - alpha) * c.filtered_derivative
        (c.kd * fd, fd)
      else
        (c.kd * raw_derivative, c.filtered_derivative)
  let d_term := dres.1
  (p_term + i_term + d_term,
   { c with
     integral := integral
     prev_error := error
     filtered_derivative := dres.2
     first_call := if c.first_call then false else c.first_call })

/-- The four PID instances of `CascadedController`. -/
structure Cascaded where
  alt_pid : PID
  roll_pid : PID
  pitch_pid : PID
  yaw_pid : PID

/-- `CascadedController.__init__`: the hand-tuned gains from the source. -/
def Cascaded.init : Cascaded where
  alt_pid := PID.init 10.0 2.0 5.0 (some 2.5) 0.02
  roll_pid := PID.init 2.0 0.1 1.0 (some 0.1) 0.08
  pitch_pid := PID.init 2.0 0.1 1.0 (some 0.1) 0.08
  yaw_pid := PID.init 1.0 0.05 0.5 (some 0.05) 0.08

/-- `CascadedController.reset`: resets all four PID controllers. -/
def Cascaded.reset (c : Cascaded) : Cascaded where
  alt_pid := c.alt_pid.reset
  roll_pid := c.roll_pid.reset
  pitch_pid := c.pitch_pid.reset
  yaw_pid := c.yaw_pid.reset

/-- `CascadedController.update_altitude(z_ref, z_actual, vz_actual, mass, g, dt)`:
feeds `z_err - 0.2 * vz_actual` to the altitude PID and adds the hover
feedforward `mass * g` to its output. -/
noncomputable def Cascaded.update_altitude (c : Cascaded)
    (z_ref z_actual vz_actual mass g dt : ℝ) : ℝ × Cascaded :=
  let z_err := z_ref - z_actual
  let res := c.alt_pid.update (z_err - 0.2 * vz_actual) dt
  (mass * g + res.1, { c with alt_pid := res.2 })

/-- `CascadedController.update_attitude`: three independent PID updates on
the plain errors `ref - actual`, returning the three torque commands. -/
noncomputable def Cascaded.update_attitude (c : Cascaded)
    (roll_ref pitch_ref yaw_ref roll_actual pitch_actual yaw_actual dt : ℝ) :
    (ℝ × ℝ × ℝ) × Cascaded :=
  let roll_err := roll_ref - roll_actual
  let pitch_err := pitch_ref - pitch_actual
  let yaw_err := yaw_ref - yaw_actual
  let rres := c.roll_pid.update roll_err dt
  let pres := c.pitch_pid.update pitch_err dt
  let yres := c.yaw_pid.update yaw_err dt
  ((rres.1, pres.1, yres.1),
   { c with roll_pid := rres.2, pitch_pid := pres.2, yaw_pid := yres.2 })

/-! ### simulator.py: QuadcopterSimulator -/

/-- The attribute set of a `QuadcopterSimulator` instance. -/
structure Sim where
  quad : Quad
  controller : Cascaded
  z_ref : ℝ
  roll_ref : ℝ
  pitch_ref : ℝ
  yaw_ref : ℝ
  sim_time : ℝ
  step_count : ℕ
  logged_states : List (ℝ × StateDict)

/-- `QuadcopterSimulator.__init__(mass, length, Ixx, Iyy, Izz)`. -/
def Sim.init (mass length Ixx Iyy Izz : ℝ) : Sim where
  quad := Quad.init mass length Ixx Iyy Izz
  controller := Cascaded.init
  z_ref := 2.5
  roll_ref := 0
  pitch_ref := 0
  yaw_ref := 0
  sim_time := 0
  step_count := 0
  logged_states := []

/-- `QuadcopterSimulator.set_references(roll_ref, pitch_ref, yaw_ref, z_ref)`. -/
def Sim.set_references (s : Sim) (roll_ref pitch_ref yaw_ref z_ref : ℝ) : Sim :=
  { s with
    roll_ref := roll_ref
    pitch_ref := pitch_ref
    yaw_ref := yaw_ref
    z_ref := z_ref }

/-- `QuadcopterSimulator.step(dt)`: control update, physics step, time and
tick bookkeeping, and the sampled, capacity-bounded history log
(`pop(0)` is `List.tail` on the just-appended, hence non-empty, list). -/
noncomputable def Sim.step (s : Sim) (dt : ℝ) : Sim :=
  let state := s.quad.get_state
  let ares := s.controller.update_altitude s.z_ref state.z state.vz
    s.quad.mass Quad.g dt
  let thrust := ares.1
  let tres := ares.2.update_attitude s.roll_ref s.pitch_ref s.yaw_ref
    state.roll state.pitch state.yaw dt
  let quad := (s.quad.set_control tres.1.1 tres.1.2.1 tres.1.2.2 thrust).step dt
  let sim_time := s.sim_time + dt
  let step_count := s.step_count + 1
  let logged_states :=
    if step_count % 4 = 0 then
      let l := s.logged_states ++ [(sim_time, quad.get_state)]
      if l.length > 5000 then l.tail else l
    else s.logged_states
  { s with
    quad := quad
    controller := tres.2
    sim_time := sim_time
    step_count := step_count
    logged_states := logged_states }

/-- `QuadcopterSimulator.reset`: resets the vehicle, the controllers and the
bookkeeping.  The reference values are not touched. -/
def Sim.reset (s : Sim) : Sim :=
  { s with
    quad := s.quad.reset
    controller := s.controller.reset
    sim_time := 0
    step_count := 0
    logged_states := [] }

/-- A sequence of `step` calls, one per listed `dt`. -/
noncomputable def Sim.run (s : Sim) : List ℝ → Sim
  | [] => s
  | dt :: rest => (s.step dt).run rest

/-! ### Derived scenarios used by the claims -/

/-- All states of a `Quadcopter` obtainable from a freshly constructed
instance by any sequence of `set_control` and `step` calls. -/
inductive Reachable : Quad → Prop
  | init (mass length Ixx Iyy Izz : ℝ) :
      Reachable (Quad.init mass length Ixx Iyy Izz)
  | set_control {s : Quad} (tr tp ty th : ℝ) :
      Reachable s → Reachable (s.set_control tr tp ty th)
  | step {s : Quad} (dt : ℝ) :
      Reachable s → Reachable (s.step dt)

/-- The default-constructed vehicle left in free fall: zero control inputs
(the construction values) and repeated `step dt`. -/
noncomputable def freeFall (dt : ℝ) : ℕ → Quad
  | 0 => Quad.init 1.0 0.3 0.01 0.01 0.02
  | n + 1 => (freeFall dt n).step dt

/-- Invariant of the free-fall trajectory: all lateral and angular state is
zero, the controls are the construction zeros, and the vertical state is
either exact free fall (with the velocity clamp slack) or grounded. -/
def FFinv (dt : ℝ) (n : ℕ) (s : Quad) : Prop :=
  s.mass = 1 ∧ s.thrust = 0 ∧
  s.torque_roll = 0 ∧ s.torque_pitch = 0 ∧ s.torque_yaw = 0 ∧
  s.x = 0 ∧ s.y = 0 ∧ s.vx = 0 ∧ s.vy = 0 ∧
  s.roll = 0 ∧ s.pitch = 0 ∧ s.yaw = 0 ∧
  s.p = 0 ∧ s.q = 0 ∧ s.r = 0 ∧
  ((s.vz = -(Quad.g * dt * n) ∧ Quad.g * dt * n ≤ 50 ∧
      s.z = 2.5 - Quad.g * dt ^ 2 * (n * (n + 1)) / 2 ∧ 0 ≤ s.z) ∨
    (s.z = 0 ∧ s.vz = 0))

/-! ### Lemmas: yaw wrapping -/

theorem wrapDown_of_le {y : ℝ} (h : y ≤ Real.pi) : wrapDown y = y := by
  rw [wrapDown]
  exact dif_neg (not_lt.mpr h)

theorem wrapUp_of_ge {y : ℝ} (h : -Real.pi ≤ y) : wrapUp y = y := by
  rw [wrapUp]
  exact dif_neg (not_lt.mpr h)

theorem wrapDown_le (y : ℝ) : wrapDown y ≤ Real.pi := by
  induction y using wrapDown.induct with
  | case1 y h ih =>
    rw [wrapDown, dif_pos h]
    exact ih
  | case2 y h =>
    rw [wrapDown, dif_neg h]
    exact le_of_not_lt h

theorem wrapUp_ge (y : ℝ) : -Real.pi ≤ wrapUp y := by
  induction y using wrapUp.induct with
  | case1 y h ih =>
    rw [wrapUp, dif_pos h]
    exact ih
  | case2 y h =>
    rw [wrapUp, dif_neg h]
    exact le_of_not_lt h

theorem wrapUp_le {y : ℝ} (h : y ≤ Real.pi) : wrapUp y ≤ Real.pi := by
  induction y using wrapUp.induct with
  | case1 y hlt ih =>
    rw [wrapUp, dif_pos hlt]
    have hpi : (0 : ℝ) < Real.pi := Real.pi_pos
    exact ih (by linarith)
  | case2 y hlt =>
    rw [wrapUp, dif_neg hlt]
    exact h

theorem wrapDown_zero : wrapDown 0 = 0 :=
  wrapDown_of_le (le_of_lt Real.pi_pos)

theorem wrapUp_zero : wrapUp 0 = 0 :=
  wrapUp_of_ge (by linarith [Real.pi_pos])

/-! ### Claim C1: reset followed by get_state -/

/-- **C1** (counterexample): the claim says that after any `set_control`
and `step` calls, `reset()` followed by `get_state()` reports the
construction-time thrust 0.  But after `set_control(0, 0, 0, 5)` and
`reset()`, `get_state()` still reports thrust 5: `reset` does not clear the
last-applied control inputs. -/
theorem C1_counterexample :
    (((Quad.init 1.0 0.3 0.01 0.01 0.02).set_control 0 0 0 5).reset).get_state.thrust
      ≠ 0 := by
  show max (0.0 : ℝ) 5 ≠ 0
  norm_num

/-- **C1** (amended): for every vehicle state, `reset()` followed by
`get_state()` reproduces the construction-time position `(0, 0, 2.5)` and
zero velocity, attitude and angular rates, and clears the history list;
the last-applied control inputs (thrust and the three torques) are left at
their current values, not restored to the construction-time zeros. -/
theorem C1_reset_restores_kinematic_defaults (s : Quad) :
    s.reset.get_state
      = { x := 0, y := 0, z := 2.5, vx := 0, vy := 0, vz := 0,
          roll := 0, pitch := 0, yaw := 0, p := 0, q := 0, r := 0,
          thrust := s.thrust, torque_roll := s.torque_roll,
          torque_pitch := s.torque_pitch, torque_yaw := s.torque_yaw } ∧
    s.reset.history = [] :=
  ⟨rfl, rfl⟩

/-! ### Claim C4: first PID update has no derivative contribution -/

/-- **C4**: on any `PID` whose first-call flag is armed (as after
construction or `reset()`), `update(error, dt)` returns exactly
`kp * error + ki * integral` for the updated (clamped) integral — the
derivative contribution is zero for any gains — and clears the flag. -/
theorem C4_first_update_has_no_derivative (c : PID) (h : c.first_call = true)
    (error dt : ℝ) :
    (c.update error dt).1
        = c.kp * error + c.ki * (c.update error dt).2.integral ∧
    (c.update error dt).2.first_call = false ∧
    (∀ (kp ki kd tau : ℝ) (lim : Option ℝ),
        (PID.init kp ki kd lim tau).first_call = true) ∧
    c.reset.first_call = true := by
  refine ⟨?_, ?_, fun kp ki kd tau lim => rfl, rfl⟩
  · show c.kp * error + _ + _ = _
    simp [PID.update, h]
    norm_num
  · show (if c.first_call then false else c.first_call) = false
    simp [h]

/-- Witness for C4 at concrete inputs: gains `(1, 1, 1)` (nonzero `kd`),
error 2, `dt` 3. -/
theorem C4_witness :
    ((PID.init 1 1 1 none 0).update 2 3).1
        = (PID.init 1 1 1 none 0).kp * 2
          + (PID.init 1 1 1 none 0).ki * ((PID.init 1 1 1 none 0).update 2 3).2.integral ∧
    ((PID.init 1 1 1 none 0).update 2 3).2.first_call = false ∧
    (∀ (kp ki kd tau : ℝ) (lim : Option ℝ),
        (PID.init kp ki kd lim tau).first_call = true) ∧
    (PID.init 1 1 1 none 0).reset.first_call = true :=
  C4_first_update_has_no_derivative (PID.init 1 1 1 none 0) rfl 2 3

/-! ### Claim C5: integrator anti-windup clamp -/

/-- **C5** (counterexample): the claim quantifies over every non-`None`
`integrator_limit`.  For the (degenerate but accepted) limit `-1` the
clamped accumulator after one update is `max 1 (min (-1) 0) = 1`, which
does not lie in the empty interval `[-(-1), -1]`. -/
theorem C5_counterexample :
    ¬ (-(-1 : ℝ) ≤ (((PID.init 0 0 0 (some (-1)) 0).update 0 1).2).integral ∧
        (((PID.init 0 0 0 (some (-1)) 0).update 0 1).2).integral ≤ (-1 : ℝ)) := by
  rintro ⟨h1, h2⟩
  linarith

/-- **C5** (amended): for every `PID` with a non-`None`, *nonnegative*
`integrator_limit L`, each `update` stores as accumulator exactly the
symmetric clamp of the accumulated value — applied to the state before it
is multiplied by `ki` — and hence the accumulator always lies in
`[-L, L]`; in particular it can never be pushed past the limit. -/
theorem C5_integrator_clamped (c : PID) (L : ℝ)
    (hL : c.integrator_limit = some L) (h0 : 0 ≤ L) (error dt : ℝ) :
    (c.update error dt).2.integral = max (-L) (min L (c.integral + error * dt)) ∧
    -L ≤ (c.update error dt).2.integral ∧
    (c.update error dt).2.integral ≤ L := by
  have he : (c.update error dt).2.integral
      = max (-L) (min L (c.integral + error * dt)) := by
    simp [PID.update, hL]
  refine ⟨he, ?_, ?_⟩
  · rw [he]
    exact le_max_left _ _
  · rw [he]
    exact max_le (by linarith) (min_le_left _ _)

/-- Witness for C5 at concrete inputs: limit 1, error 5, `dt` 1. -/
theorem C5_witness :
    ((PID.init 1 1 0 (some 1) 0).update 5 1).2.integral
        = max (-1) (min 1 ((PID.init 1 1 0 (some 1) 0).integral + 5 * 1)) ∧
    -1 ≤ ((PID.init 1 1 0 (some 1) 0).update 5 1).2.integral ∧
    ((PID.init 1 1 0 (some 1) 0).update 5 1).2.integral ≤ 1 :=
  C5_integrator_clamped (PID.init 1 1 0 (some 1) 0) 1 rfl (by norm_num) 5 1

/-! ### Claim C7: constructor parameter validation -/

/-- **C7** (the code at the claimed failing input): constructing the model
with mass `-1` and moment of inertia `Ixx = -0.01` succeeds and stores the
non-positive parameters unvalidated; nothing in `__init__` rejects them,
contradicting the specification's fail-fast requirement. -/
theorem C7_constructor_accepts_nonpositive_parameters :
    (Quad.init (-1) 0.3 (-0.01) 0.01 0.02).mass = -1 ∧
    (Quad.init (-1) 0.3 (-0.01) 0.01 0.02).Ix = -0.01 :=
  ⟨rfl, rfl⟩

/-! ### Claim C8: altitude control law -/

/-- **C8**: `update_altitude(z_ref, z, vz, mass, g, dt)` feeds exactly
`(z_ref - z) - 0.2 * vz` to the altitude PID and returns
`mass * g` plus that PID's output. -/
theorem C8_update_altitude_formula (c : Cascaded)
    (z_ref z_actual vz_actual mass g dt : ℝ) :
    (c.update_altitude z_ref z_actual vz_actual mass g dt).1
        = mass * g
          + (c.alt_pid.update ((z_ref - z_actual) - 0.2 * vz_actual) dt).1 ∧
    (c.update_altitude z_ref z_actual vz_actual mass g dt).2.alt_pid
        = (c.alt_pid.update ((z_ref - z_actual) - 0.2 * vz_actual) dt).2 :=
  ⟨rfl, rfl⟩

/-! ### Claim C10: simulator reset leaves the setpoints alone -/

/-- **C10**: after `set_references(roll, pitch, yaw, z)` followed by
`reset()`, the four references still hold the values from that
`set_references` call; only the vehicle's kinematic state, the four PID
states, the tick counter, the elapsed time and the history log are
cleared (and the quadcopter's last-applied control inputs are likewise
left untouched). -/
theorem C10_reset_keeps_references (s : Sim) (roll_ref pitch_ref yaw_ref z_ref : ℝ) :
    ((s.set_references roll_ref pitch_ref yaw_ref z_ref).reset).roll_ref = roll_ref ∧
    ((s.set_references roll_ref pitch_ref yaw_ref z_ref).reset).pitch_ref = pitch_ref ∧
    ((s.set_references roll_ref pitch_ref yaw_ref z_ref).reset).yaw_ref = yaw_ref ∧
    ((s.set_references roll_ref pitch_ref yaw_ref z_ref).reset).z_ref = z_ref ∧
    ((s.set_references roll_ref pitch_ref yaw_ref z_ref).reset).quad = s.quad.reset ∧
    ((s.set_references roll_ref pitch_ref yaw_ref z_ref).reset).quad.get_state
      = { x := 0, y := 0, z := 2.5, vx := 0, vy := 0, vz := 0,
          roll := 0, pitch := 0, yaw := 0, p := 0, q := 0, r := 0,
          thrust := s.quad.thrust, torque_roll := s.quad.torque_roll,
          torque_pitch := s.quad.torque_pitch, torque_yaw := s.quad.torque_yaw } ∧
    ((s.set_references roll_ref pitch_ref yaw_ref z_ref).reset).controller
      = s.controller.reset ∧
    ((s.set_references roll_ref pitch_ref yaw_ref z_ref).reset).sim_time = 0 ∧
    ((s.set_references roll_ref pitch_ref yaw_ref z_ref).reset).step_count = 0 ∧
    ((s.set_references roll_ref pitch_ref yaw_ref z_ref).reset).logged_states = [] :=
  ⟨rfl, rfl, rfl, rfl, rfl, rfl, rfl, rfl, rfl, rfl⟩

/-! ### Projections of one integration step -/

theorem Quad.step_roll (s : Quad) (dt : ℝ) :
    (s.step dt).roll
      = max (-Quad.MAX_ANGLE)
          (min Quad.MAX_ANGLE (s.roll + (s.p + s.torque_roll / s.Ix * dt) * dt)) :=
  rfl

theorem Quad.step_pitch (s : Quad) (dt : ℝ) :
    (s.step dt).pitch
      = max (-Quad.MAX_ANGLE)
          (min Quad.MAX_ANGLE (s.pitch + (s.q + s.torque_pitch / s.Iy * dt) * dt)) :=
  rfl

theorem Quad.step_yaw (s : Quad) (dt : ℝ) :
    (s.step dt).yaw
      = wrapUp (wrapDown (s.yaw + (s.r + s.torque_yaw / s.Iz * dt) * dt)) :=
  rfl

theorem abs_clamp_le {M x : ℝ} (h : 0 ≤ M) : |max (-M) (min M x)| ≤ M :=
  abs_le.mpr ⟨le_max_left _ _, max_le (by linarith) (min_le_left _ _)⟩

/-! ### Claim C2: attitude bounds over every trajectory -/

/-- **C2** (counterexample): the claim puts the observed yaw in the
half-open interval `(-π, π]`.  From the construction state, the torque
command `-π · Izz` with one step of `dt = 1` produces yaw exactly `-π`,
which the wrap loops leave alone (they only fire strictly outside
`[-π, π]`), so `-π < yaw` fails. -/
theorem C2_counterexample :
    ¬ (-Real.pi <
        (((Quad.init 1.0 0.3 0.01 0.01 0.02).set_control 0 0 (-Real.pi * 0.02) 0).step
            1).get_state.yaw) := by
  have hpi : (0 : ℝ) < Real.pi := Real.pi_pos
  have hy :
      (((Quad.init 1.0 0.3 0.01 0.01 0.02).set_control 0 0 (-Real.pi * 0.02) 0).step
          1).get_state.yaw = -Real.pi := by
    show wrapUp (wrapDown ((0 : ℝ) + (0 + -Real.pi * 0.02 / 0.02 * 1) * 1)) = -Real.pi
    have harg : (0 : ℝ) + (0 + -Real.pi * 0.02 / 0.02 * 1) * 1 = -Real.pi := by
      field_simp
    rw [harg, wrapDown_of_le (by linarith), wrapUp_of_ge le_rfl]
  rw [hy]
  exact lt_irrefl _

/-- **C2** (amended): for every sequence of `set_control` and `step` calls
from any construction state, the roll and pitch read from `get_state`
always lie in `[-MAX_ANGLE, MAX_ANGLE]` and the yaw always lies in the
*closed* interval `[-π, π]` (the boundary `-π` itself is reachable). -/
theorem C2_attitude_bounds (s : Quad) (h : Reachable s) :
    |s.get_state.roll| ≤ Quad.MAX_ANGLE ∧
    |s.get_state.pitch| ≤ Quad.MAX_ANGLE ∧
    -Real.pi ≤ s.get_state.yaw ∧ s.get_state.yaw ≤ Real.pi := by
  have hpi : (0 : ℝ) < Real.pi := Real.pi_pos
  have hMA : (0 : ℝ) ≤ Quad.MAX_ANGLE := by norm_num [Quad.MAX_ANGLE]
  induction h with
  | init mass length Ixx Iyy Izz =>
    refine ⟨?_, ?_, ?_, ?_⟩ <;>
      simp [Quad.init, Quad.get_state] <;> linarith
  | set_control tr tp ty th _ ih => exact ih
  | step dt _ ih =>
    rename_i s' _
    refine ⟨?_, ?_, ?_, ?_⟩
    · rw [show (s'.step dt).get_state.roll = (s'.step dt).roll from rfl,
        Quad.step_roll]
      exact abs_clamp_le hMA
    · rw [show (s'.step dt).get_state.pitch = (s'.step dt).pitch from rfl,
        Quad.step_pitch]
      exact abs_clamp_le hMA
    · rw [show (s'.step dt).get_state.yaw = (s'.step dt).yaw from rfl,
        Quad.step_yaw]
      exact wrapUp_ge _
    · rw [show (s'.step dt).get_state.yaw = (s'.step dt).yaw from rfl,
        Quad.step_yaw]
      exact wrapUp_le (wrapDown_le _)

/-- Witness for C2 at the construction state itself. -/
theorem C2_witness :
    |(Quad.init 1.0 0.3 0.01 0.01 0.02).get_state.roll| ≤ Quad.MAX_ANGLE ∧
    |(Quad.init 1.0 0.3 0.01 0.01 0.02).get_state.pitch| ≤ Quad.MAX_ANGLE ∧
    -Real.pi ≤ (Quad.init 1.0 0.3 0.01 0.01 0.02).get_state.yaw ∧
    (Quad.init 1.0 0.3 0.01 0.01 0.02).get_state.yaw ≤ Real.pi :=
  C2_attitude_bounds _ (Reachable.init 1.0 0.3 0.01 0.01 0.02)

/-! ### Claim C6: step with a non-positive time step -/

/-- **C6** (the code at the claimed failing input): from the freshly
constructed vehicle (at rest, zero controls), `step(-0.1)` neither raises
nor leaves the state unchanged: it integrates gravity backwards and sets
`vz` to `0.981` (the vehicle starts "falling upwards").  There is no guard
on `dt` anywhere in `step`. -/
theorem C6_negative_dt_mutates_state :
    ((Quad.init 1.0 0.3 0.01 0.01 0.02).step (-0.1)).vz = 0.981 ∧
    (Quad.init 1.0 0.3 0.01 0.01 0.02).vz = 0 := by
  constructor
  · simp only [Quad.step, Quad.init]
    norm_num [Quad.g, Quad.MAX_VEL, Quad.MAX_POS, Quad.MAX_ANGLE, max_def, min_def]
  · rfl

/-! ### Claim C3: free fall.  One step from a free-fall-shaped state. -/

theorem step_ff_p {s : Quad} (dt : ℝ) (ht : s.torque_roll = 0) (hp : s.p = 0) :
    (s.step dt).p = 0 := by
  show s.p + s.torque_roll / s.Ix * dt = 0
  rw [ht, hp]
  simp

theorem step_ff_q {s : Quad} (dt : ℝ) (ht : s.torque_pitch = 0) (hq : s.q = 0) :
    (s.step dt).q = 0 := by
  show s.q + s.torque_pitch / s.Iy * dt = 0
  rw [ht, hq]
  simp

theorem step_ff_r {s : Quad} (dt : ℝ) (ht : s.torque_yaw = 0) (hr : s.r = 0) :
    (s.step dt).r = 0 := by
  show s.r + s.torque_yaw / s.Iz * dt = 0
  rw [ht, hr]
  simp

theorem step_ff_roll {s : Quad} (dt : ℝ) (ht : s.torque_roll = 0) (hp : s.p = 0)
    (hroll : s.roll = 0) : (s.step dt).roll = 0 := by
  rw [Quad.step_roll, ht, hp, hroll]
  norm_num [Quad.MAX_ANGLE, min_def, max_def]

theorem step_ff_pitch {s : Quad} (dt : ℝ) (ht : s.torque_pitch = 0) (hq : s.q = 0)
    (hpitch : s.pitch = 0) : (s.step dt).pitch = 0 := by
  rw [Quad.step_pitch, ht, hq, hpitch]
  norm_num [Quad.MAX_ANGLE, min_def, max_def]

theorem step_ff_yaw {s : Quad} (dt : ℝ) (ht : s.torque_yaw = 0) (hr : s.r = 0)
    (hyaw : s.yaw = 0) : (s.step dt).yaw = 0 := by
  rw [Quad.step_yaw, ht, hr, hyaw]
  norm_num [wrapDown_zero, wrapUp_zero]

theorem step_ff_vx {s : Quad} (dt : ℝ) (hth : s.thrust = 0) (hvx : s.vx = 0) :
    (s.step dt).vx = 0 := by
  simp only [Quad.step, hth, hvx]
  norm_num [Quad.MAX_VEL, min_def, max_def]

theorem step_ff_vy {s : Quad} (dt : ℝ) (hth : s.thrust = 0) (hvy : s.vy = 0) :
    (s.step dt).vy = 0 := by
  simp only [Quad.step, hth, hvy]
  norm_num [Quad.MAX_VEL, min_def, max_def]

theorem step_ff_x {s : Quad} (dt : ℝ) (hth : s.thrust = 0) (hvx : s.vx = 0)
    (hx : s.x = 0) : (s.step dt).x = 0 := by
  simp only [Quad.step, hth, hvx, hx]
  norm_num [Quad.MAX_VEL, Quad.MAX_POS, min_def, max_def]

theorem step_ff_y {s : Quad} (dt : ℝ) (hth : s.thrust = 0) (hvy : s.vy = 0)
    (hy : s.y = 0) : (s.step dt).y = 0 := by
  simp only [Quad.step, hth, hvy, hy]
  norm_num [Quad.MAX_VEL, Quad.MAX_POS, min_def, max_def]

theorem step_ff_vz {s : Quad} (dt : ℝ) (hth : s.thrust = 0) (hm : s.mass = 1) :
    (s.step dt).vz =
      if s.z + max (-Quad.MAX_VEL) (min Quad.MAX_VEL (s.vz + -Quad.g * dt)) * dt < 0
      then 0
      else max (-Quad.MAX_VEL) (min Quad.MAX_VEL (s.vz + -Quad.g * dt)) := by
  simp only [Quad.step, hth, hm]
  norm_num

theorem step_ff_z {s : Quad} (dt : ℝ) (hth : s.thrust = 0) (hm : s.mass = 1) :
    (s.step dt).z =
      max 0 (min Quad.MAX_POS
        (if s.z + max (-Quad.MAX_VEL) (min Quad.MAX_VEL (s.vz + -Quad.g * dt)) * dt < 0
         then 0
         else s.z + max (-Quad.MAX_VEL) (min Quad.MAX_VEL (s.vz + -Quad.g * dt)) * dt)) := by
  simp only [Quad.step, hth, hm]
  norm_num

set_option maxHeartbeats 1000000 in
/-- One `step` preserves the free-fall invariant, and from a grounded state
(`z = 0`) the next state is grounded with `z = 0` and `vz = 0`. -/
theorem FFinv_step {dt : ℝ} (hdt : 0 < dt) {n : ℕ} {s : Quad}
    (h : FFinv dt n s) :
    FFinv dt (n + 1) (s.step dt) ∧
      (s.z = 0 → (s.step dt).z = 0 ∧ (s.step dt).vz = 0) := by
  obtain ⟨hm, hth, ht1, ht2, ht3, hx, hy, hvx, hvy, hroll, hpitch, hyaw,
    hp, hq, hr, hbr⟩ := h
  have hg : Quad.g = 9.81 := rfl
  have hMV : Quad.MAX_VEL = 50 := by norm_num [Quad.MAX_VEL]
  have hMP : Quad.MAX_POS = 500 := by norm_num [Quad.MAX_POS]
  have hvzeq := step_ff_vz dt hth hm
  have hzeq := step_ff_z dt hth hm
  set V : ℝ := max (-Quad.MAX_VEL) (min Quad.MAX_VEL (s.vz + -Quad.g * dt)) with hV
  set ZC : ℝ := s.z + V * dt with hZC
  have main :
      (((s.step dt).vz = -(Quad.g * dt * ((n : ℕ) + 1 : ℕ)) ∧
          Quad.g * dt * ((n : ℕ) + 1 : ℕ) ≤ 50 ∧
          (s.step dt).z
            = 2.5 - Quad.g * dt ^ 2 * (((n : ℕ) + 1 : ℕ) * (((n : ℕ) + 1 : ℕ) + 1)) / 2 ∧
          0 ≤ (s.step dt).z) ∨
        ((s.step dt).z = 0 ∧ (s.step dt).vz = 0)) ∧
      (s.z = 0 → (s.step dt).z = 0 ∧ (s.step dt).vz = 0) := by
    rcases hbr with ⟨hvz, hle, hzf, hz0⟩ | ⟨hsz, hsvz⟩
    · -- airborne at step n
      have hVval : s.vz + -Quad.g * dt = -(Quad.g * dt * ((n : ℝ) + 1)) := by
        rw [hvz]
        ring
      have hnn : (0 : ℝ) ≤ Quad.g * dt * ((n : ℝ) + 1) := by
        rw [hg]
        positivity
      have hminval : min Quad.MAX_VEL (s.vz + -Quad.g * dt)
          = -(Quad.g * dt * ((n : ℝ) + 1)) := by
        rw [hVval, hMV]
        exact min_eq_right (by linarith)
      by_cases hcl : Quad.g * dt * ((n : ℝ) + 1) ≤ 50
      · have hVeq : V = -(Quad.g * dt * ((n : ℝ) + 1)) := by
          rw [hV, hminval, hMV]
          exact max_eq_right (by linarith)
        have hZCval : ZC = 2.5 - Quad.g * dt ^ 2 * (((n : ℝ) + 1) * ((n : ℝ) + 2)) / 2 := by
          rw [hZC, hVeq, hzf]
          ring
        by_cases hzc : ZC < 0
        · -- the position update drives z below 0: ground clamp
          have hz1 : (s.step dt).z = 0 := by
            rw [hzeq, if_pos hzc, hMP]
            norm_num
          have hvz1 : (s.step dt).vz = 0 := by
            rw [hvzeq, if_pos hzc]
          exact ⟨Or.inr ⟨hz1, hvz1⟩, fun _ => ⟨hz1, hvz1⟩⟩
        · -- still airborne
          have hzcc : 0 ≤ ZC := not_lt.mp hzc
          have hzub : ZC ≤ 2.5 := by
            rw [hZCval]
            have h0 : (0 : ℝ) ≤ Quad.g * dt ^ 2 * (((n : ℝ) + 1) * ((n : ℝ) + 2)) / 2 := by
              rw [hg]
              positivity
            linarith
          have hz1 : (s.step dt).z = ZC := by
            rw [hzeq, if_neg hzc, hMP, min_eq_right (by linarith), max_eq_right hzcc]
          have hvz1 : (s.step dt).vz = -(Quad.g * dt * ((n : ℝ) + 1)) := by
            rw [hvzeq, if_neg hzc, hVeq]
          refine ⟨Or.inl ⟨?_, ?_, ?_, ?_⟩, ?_⟩
          · rw [hvz1]
            push_cast
            ring
          · push_cast
            linarith
          · rw [hz1, hZCval]
            push_cast
            ring
          · rw [hz1]
            exact hzcc
          · -- the exact-touch case: if s.z = 0 the next position is negative
            intro hsz
            exfalso
            have hgpos : 0 < Quad.g * dt * ((n : ℝ) + 1) := by
              rw [hg]
              positivity
            have : ZC < 0 := by
              rw [hZC, hsz, hVeq]
              nlinarith
            exact hzc this
      · -- the velocity clamp binds, which forces ground contact
        push_neg at hcl
        have hVeq : V = -50 := by
          rw [hV, hminval, hMV]
          exact max_eq_left (by linarith)
        have hzc : ZC < 0 := by
          rw [hZC, hVeq, hzf, hg]
          rw [hg] at hcl
          rcases le_or_lt dt 0.05 with hd | hd
          · have hsplit : dt * ((n : ℝ) + 1) = dt * (n : ℝ) + dt := by ring
            have h1 : (5 : ℝ) < dt * ((n : ℝ) + 1) := by nlinarith
            have h2 : (4.9 : ℝ) < dt * (n : ℝ) := by linarith
            have h3 : (100 : ℝ) < 9.81 * dt ^ 2 * ((n : ℝ) * ((n : ℝ) + 1)) / 2 := by
              nlinarith
            nlinarith
          · have h4 : (2.5 : ℝ) < 50 * dt := by linarith
            have h5 : (0 : ℝ) ≤ 9.81 * dt ^ 2 * ((n : ℝ) * ((n : ℝ) + 1)) / 2 := by
              positivity
            linarith
        have hz1 : (s.step dt).z = 0 := by
          rw [hzeq, if_pos hzc, hMP]
          norm_num
        have hvz1 : (s.step dt).vz = 0 := by
          rw [hvzeq, if_pos hzc]
        exact ⟨Or.inr ⟨hz1, hvz1⟩, fun _ => ⟨hz1, hvz1⟩⟩
    · -- grounded at step n
      have hVneg : V < 0 := by
        rw [hV, hsvz, hMV, hg]
        apply max_lt (by norm_num)
        apply lt_of_le_of_lt (min_le_right _ _)
        nlinarith
      have hzc : ZC < 0 := by
        rw [hZC, hsz]
        have := mul_neg_of_neg_of_pos hVneg hdt
        linarith
      have hz1 : (s.step dt).z = 0 := by
        rw [hzeq, if_pos hzc, hMP]
        norm_num
      have hvz1 : (s.step dt).vz = 0 := by
        rw [hvzeq, if_pos hzc]
      exact ⟨Or.inr ⟨hz1, hvz1⟩, fun _ => ⟨hz1, hvz1⟩⟩
  exact ⟨⟨hm, hth, ht1, ht2, ht3, step_ff_x dt hth hvx hx, step_ff_y dt hth hvy hy,
    step_ff_vx dt hth hvx, step_ff_vy dt hth hvy,
    step_ff_roll dt ht1 hp hroll, step_ff_pitch dt ht2 hq hpitch,
    step_ff_yaw dt ht3 hr hyaw, step_ff_p dt ht1 hp, step_ff_q dt ht2 hq,
    step_ff_r dt ht3 hr, main.1⟩, main.2⟩

/-- The free-fall invariant holds along the whole trajectory. -/
theorem freeFall_inv (dt : ℝ) (hdt : 0 < dt) : ∀ n, FFinv dt n (freeFall dt n) := by
  intro n
  induction n with
  | zero =>
    refine ⟨?_, ?_, ?_, ?_, ?_, ?_, ?_, ?_, ?_, ?_, ?_, ?_, ?_, ?_, ?_,
      Or.inl ⟨?_, ?_, ?_, ?_⟩⟩ <;>
      norm_num [freeFall, Quad.init, Quad.g]
  | succ n ih => exact (FFinv_step hdt ih).1

/-- **C3**: for every `dt > 0`, the default-constructed vehicle with zero
control inputs keeps `z ≥ 0`; while it is strictly above the ground its
vertical velocity after `n` steps is exactly `-g·dt·n` (acceleration
exactly `g` downward, the velocity clamp never interfering while
airborne); once `z` reaches 0, every later step leaves `z = 0` and
`vz = 0`; and on any step whose position update drives `z` below 0, both
`z` and `vz` are set to 0. -/
theorem C3_free_fall_gravity_then_ground (dt : ℝ) (hdt : 0 < dt) (n : ℕ) :
    0 ≤ (freeFall dt n).z ∧
    (0 < (freeFall dt n).z → (freeFall dt n).vz = -(Quad.g * dt * n)) ∧
    ((freeFall dt n).z = 0 →
      ∀ m : ℕ, (freeFall dt (n + m + 1)).z = 0 ∧ (freeFall dt (n + m + 1)).vz = 0) ∧
    (∀ (s : Quad) (d : ℝ), s.thrust = 0 → s.mass = 1 →
      s.z + max (-Quad.MAX_VEL) (min Quad.MAX_VEL (s.vz + -Quad.g * d)) * d < 0 →
      (s.step d).z = 0 ∧ (s.step d).vz = 0) := by
  have hinv := freeFall_inv dt hdt
  refine ⟨?_, ?_, ?_, ?_⟩
  · obtain ⟨-, -, -, -, -, -, -, -, -, -, -, -, -, -, -, hbr⟩ := hinv n
    rcases hbr with ⟨-, -, -, hz0⟩ | ⟨hz, -⟩
    · exact hz0
    · rw [hz]
  · intro hpos
    obtain ⟨-, -, -, -, -, -, -, -, -, -, -, -, -, -, -, hbr⟩ := hinv n
    rcases hbr with ⟨hvz, -, -, -⟩ | ⟨hz, -⟩
    · exact hvz
    · rw [hz] at hpos
      exact absurd hpos (lt_irrefl 0)
  · intro hz m
    induction m with
    | zero => exact (FFinv_step hdt (hinv n)).2 hz
    | succ m ihm => exact (FFinv_step hdt (hinv (n + m + 1))).2 ihm.1
  · intro s d hth hm hneg
    constructor
    · rw [step_ff_z d hth hm, if_pos hneg]
      norm_num [Quad.MAX_POS]
    · rw [step_ff_vz d hth hm, if_pos hneg]

/-- Witness for C3 at `dt = 1`, `n = 1` (the vehicle lands on that step). -/
theorem C3_witness :
    0 ≤ (freeFall 1 1).z ∧
    (0 < (freeFall 1 1).z → (freeFall 1 1).vz = -(Quad.g * 1 * ((1 : ℕ) : ℝ))) ∧
    ((freeFall 1 1).z = 0 →
      ∀ m : ℕ, (freeFall 1 (1 + m + 1)).z = 0 ∧ (freeFall 1 (1 + m + 1)).vz = 0) ∧
    (∀ (s : Quad) (d : ℝ), s.thrust = 0 → s.mass = 1 →
      s.z + max (-Quad.MAX_VEL) (min Quad.MAX_VEL (s.vz + -Quad.g * d)) * d < 0 →
      (s.step d).z = 0 ∧ (s.step d).vz = 0) :=
  C3_free_fall_gravity_then_ground 1 (by norm_num) 1

/-! ### Claim C9: the simulator's history log -/

theorem Sim.step_step_count (s : Sim) (dt : ℝ) :
    (s.step dt).step_count = s.step_count + 1 :=
  rfl

theorem Sim.step_logged_skip (s : Sim) (dt : ℝ) (h : (s.step_count + 1) % 4 ≠ 0) :
    (s.step dt).logged_states = s.logged_states := by
  simp only [Sim.step]
  rw [if_neg h]

theorem Sim.step_logged_append (s : Sim) (dt : ℝ) (h4 : (s.step_count + 1) % 4 = 0)
    (hlen : s.logged_states.length < 5000) :
    (s.step dt).logged_states
      = s.logged_states ++ [((s.step dt).sim_time, (s.step dt).quad.get_state)] := by
  simp only [Sim.step]
  rw [if_pos h4, if_neg (by simp only [List.length_append, List.length_singleton]; omega)]

theorem Sim.step_logged_evict (s : Sim) (dt : ℝ) (h4 : (s.step_count + 1) % 4 = 0)
    (hlen : s.logged_states.length = 5000) :
    (s.step dt).logged_states
      = s.logged_states.tail ++ [((s.step dt).sim_time, (s.step dt).quad.get_state)] := by
  simp only [Sim.step]
  rw [if_pos h4, if_pos (by simp only [List.length_append, List.length_singleton]; omega)]
  exact List.tail_append_singleton_of_ne_nil
    (by intro hnil; rw [hnil] at hlen; simp at hlen)

theorem Sim.step_logged_length (s : Sim) (dt : ℝ)
    (h : s.logged_states.length = min (s.step_count / 4) 5000) :
    (s.step dt).logged_states.length = min ((s.step_count + 1) / 4) 5000 := by
  by_cases h4 : (s.step_count + 1) % 4 = 0
  · by_cases hlen : s.logged_states.length < 5000
    · rw [Sim.step_logged_append s dt h4 hlen]
      simp only [List.length_append, List.length_singleton]
      omega
    · have hlen' : s.logged_states.length = 5000 := by omega
      rw [Sim.step_logged_evict s dt h4 hlen']
      simp only [List.length_append, List.length_singleton, List.length_tail, hlen']
      omega
  · rw [Sim.step_logged_skip s dt h4]
    omega

theorem Sim.run_step_count (dts : List ℝ) (s : Sim) :
    (s.run dts).step_count = s.step_count + dts.length := by
  induction dts generalizing s with
  | nil => simp [Sim.run]
  | cons dt rest ih =>
    show ((s.step dt).run rest).step_count = _
    rw [ih, Sim.step_step_count]
    simp only [List.length_cons]
    omega

theorem Sim.run_logged_length (dts : List ℝ) (s : Sim)
    (h : s.logged_states.length = min (s.step_count / 4) 5000) :
    (s.run dts).logged_states.length = min ((s.run dts).step_count / 4) 5000 := by
  induction dts generalizing s with
  | nil => exact h
  | cons dt rest ih =>
    show ((s.step dt).run rest).logged_states.length = _
    exact ih _ (by rw [Sim.step_logged_length s dt h, Sim.step_step_count])

/-- **C9**: from a fresh simulator, after any sequence of `step` calls the
history log holds exactly `min (ticks / 4) 5000` entries — in particular
never more than 5000; a single step appends an entry exactly when the new
tick count is a multiple of 4 (otherwise the log is unchanged), and when
the log is at capacity the oldest entry is evicted first. -/
theorem C9_history_log :
    (∀ dts : List ℝ,
        ((Sim.init 1.0 0.3 0.01 0.01 0.02).run dts).logged_states.length
          = min (dts.length / 4) 5000) ∧
    (∀ dts : List ℝ,
        ((Sim.init 1.0 0.3 0.01 0.01 0.02).run dts).logged_states.length ≤ 5000) ∧
    (∀ (s : Sim) (dt : ℝ), (s.step dt).step_count = s.step_count + 1) ∧
    (∀ (s : Sim) (dt : ℝ), (s.step_count + 1) % 4 ≠ 0 →
        (s.step dt).logged_states = s.logged_states) ∧
    (∀ (s : Sim) (dt : ℝ), (s.step_count + 1) % 4 = 0 →
        s.logged_states.length < 5000 →
        (s.step dt).logged_states
          = s.logged_states ++ [((s.step dt).sim_time, (s.step dt).quad.get_state)]) ∧
    (∀ (s : Sim) (dt : ℝ), (s.step_count + 1) % 4 = 0 →
        s.logged_states.length = 5000 →
        (s.step dt).logged_states
          = s.logged_states.tail ++ [((s.step dt).sim_time, (s.step dt).quad.get_state)]) := by
  have hbase : ∀ dts : List ℝ,
      ((Sim.init 1.0 0.3 0.01 0.01 0.02).run dts).logged_states.length
        = min (dts.length / 4) 5000 := by
    intro dts
    have h0 : (Sim.init 1.0 0.3 0.01 0.01 0.02).logged_states.length
        = min ((Sim.init 1.0 0.3 0.01 0.01 0.02).step_count / 4) 5000 := by
      show (List.length []) = min (0 / 4) 5000
      simp
    rw [Sim.run_logged_length dts _ h0, Sim.run_step_count]
    have hc : (Sim.init 1.0 0.3 0.01 0.01 0.02).step_count = 0 := rfl
    rw [hc]
    omega
  exact ⟨hbase, fun dts => by rw [hbase dts]; omega,
    Sim.step_step_count, Sim.step_logged_skip, Sim.step_logged_append,
    Sim.step_logged_evict⟩

/-- Witness for C9 at concrete inputs: a four-step run, a non-sampling
tick, a sampling tick below capacity, and a sampling tick at capacity. -/
theorem C9_witness :
    (((Sim.init 1.0 0.3 0.01 0.01 0.02).run [1, 1, 1, 1]).logged_states.length
        = min (([1, 1, 1, 1] : List ℝ).length / 4) 5000) ∧
    (((Sim.init 1.0 0.3 0.01 0.01 0.02).step 1).step_count
        = (Sim.init 1.0 0.3 0.01 0.01 0.02).step_count + 1) ∧
    (((Sim.init 1.0 0.3 0.01 0.01 0.02).step 1).logged_states
        = (Sim.init 1.0 0.3 0.01 0.01 0.02).logged_states) ∧
    (({ (Sim.init 1.0 0.3 0.01 0.01 0.02) with step_count := 3 }.step 1).logged_states
        = { (Sim.init 1.0 0.3 0.01 0.01 0.02) with step_count := 3 }.logged_states
          ++ [(({ (Sim.init 1.0 0.3 0.01 0.01 0.02) with step_count := 3 }.step 1).sim_time,
               ({ (Sim.init 1.0 0.3 0.01 0.01 0.02) with step_count := 3 }.step 1).quad.get_state)]) ∧
    (({ (Sim.init 1.0 0.3 0.01 0.01 0.02) with
          step_count := 3
          logged_states := List.replicate 5000
            (0, (Quad.init 1.0 0.3 0.01 0.01 0.02).get_state) }.step 1).logged_states
        = (List.replicate 5000
            (0, (Quad.init 1.0 0.3 0.01 0.01 0.02).get_state)).tail
          ++ [(({ (Sim.init 1.0 0.3 0.01 0.01 0.02) with
                  step_count := 3
                  logged_states := List.replicate 5000
                    (0, (Quad.init 1.0 0.3 0.01 0.01 0.02).get_state) }.step 1).sim_time,
               ({ (Sim.init 1.0 0.3 0.01 0.01 0.02) with
                  step_count := 3
                  logged_states := List.replicate 5000
                    (0, (Quad.init 1.0 0.3 0.01 0.01 0.02).get_state) }.step 1).quad.get_state)]) :=
  ⟨C9_history_log.1 [1, 1, 1, 1],
   C9_history_log.2.2.1 _ 1,
   C9_history_log.2.2.2.1 _ 1 (by show ¬(0 + 1) % 4 = 0; decide),
   C9_history_log.2.2.2.2.1 _ 1 (by show (3 + 1) % 4 = 0; decide)
     (by show List.length ([] : List (ℝ × StateDict)) < 5000; decide),
   C9_history_log.2.2.2.2.2 _ 1 (by show (3 + 1) % 4 = 0; decide)
     (by show (List.replicate 5000
          ((0 : ℝ), (Quad.init 1.0 0.3 0.01 0.01 0.02).get_state)).length = 5000
         rw [List.length_replicate])⟩

end DroneSim
